import Mathlib

/-!
Verification development for the ServiceNow table-query core
(`Table_Tools/generic_table_tools.py` together with the configuration in
`constants.py`).

The Python code is shallowly embedded:

* Python `str` values are modelled as `List Char` (`PyStr`); all string
  operations (`strip`, `lower`, `upper`, `split`, `in`, `startswith`,
  `endswith`, percent-encoding) are re-implemented on `List Char` following
  CPython semantics for the ASCII inputs the code manipulates.
* Python dicts used as filter mappings are modelled as association lists
  `List (PyStr × PyStr)` in insertion order.
* The regular expressions of the six date grammars are hand-compiled into
  explicit matchers with the same leftmost-search and greedy-backtracking
  semantics as `re.search` on those patterns.
* `datetime`/`timedelta` arithmetic is modelled with proleptic-Gregorian
  day-number conversions (civil-from-days / days-from-civil) on `Int`;
  `datetime.weekday` uses the Monday=0 convention.
* The async paginated executor is modelled as a pure loop over an abstract
  transport `Nat → Option (List α)` (`None` models a missing or empty
  `result` payload); an extra `Nat` component counts transport requests.

Function and constant names follow the Python source wherever Lean permits.
-/

namespace SN

/-- Python `str` modelled as a list of characters. -/
abbrev PyStr := List Char

/-- The ASCII apostrophe character (used inside ServiceNow query literals). -/
def sqc : Char := Char.ofNat 39

/-- Python `str.strip()` whitespace set (ASCII subset used by the code). -/
def pyIsSpace (c : Char) : Bool :=
  c = ' ' || c = '\t' || c = '\n' || c = '\r' || c = Char.ofNat 11 || c = Char.ofNat 12

/-- Left part of Python `str.strip()`. -/
def pyLStrip (l : PyStr) : PyStr := l.dropWhile pyIsSpace

/-- Right part of Python `str.strip()`. -/
def pyRStrip (l : PyStr) : PyStr := (l.reverse.dropWhile pyIsSpace).reverse

/-- Python `str.strip()` with no arguments. -/
def pyStrip (l : PyStr) : PyStr := pyRStrip (pyLStrip l)

/-- Python `str.strip(chars)`: remove the given characters from both ends. -/
def pyStripChars (cs : List Char) (l : PyStr) : PyStr :=
  ((l.dropWhile (fun c => c ∈ cs)).reverse.dropWhile (fun c => c ∈ cs)).reverse

/-- Python `str.lower()` (ASCII). -/
def pyLower (l : PyStr) : PyStr := l.map Char.toLower

/-- Python `str.upper()` (ASCII). -/
def pyUpper (l : PyStr) : PyStr := l.map Char.toUpper

/-- Python substring test `sub in hay`. -/
def containsSub (hay sub : PyStr) : Bool :=
  if List.isPrefixOf sub hay then true
  else
    match hay with
    | [] => false
    | _ :: t => containsSub t sub

/-- Python `sep.join(parts)` for a string separator. -/
def joinSep (sep : PyStr) : List PyStr → PyStr
  | [] => []
  | [x] => x
  | x :: y :: t => x ++ sep ++ joinSep sep (y :: t)

/-- Python `value.split(sep)` for the single-character separators used here. -/
def pySplit (sep : Char) (l : PyStr) : List PyStr := List.splitOn sep l

-- ### Value rewriters (`_normalize_priority_value` .. `_parse_caller_exclusions`)

/-- Model of `_normalize_priority_value`: convert P-notation to a number
(for example P1 becomes 1, while 2 stays 2). -/
def _normalize_priority_value (priority : PyStr) : PyStr :=
  if List.isPrefixOf "P".data (pyUpper priority) = true ∧ 1 < priority.length then
    priority.drop 1
  else priority

/-- Model of `_clean_priority_input`: strip brackets and quotes from priority input. -/
def _clean_priority_input (value : PyStr) : PyStr :=
  pyStripChars ['[', ']', '"', sqc] value

/-- Model of `_process_comma_separated_priorities`: comma list to OR syntax. -/
def _process_comma_separated_priorities (value : PyStr) : PyStr :=
  let clean_value := _clean_priority_input value
  let priorities := (pySplit ',' clean_value).map (fun p => pyStripChars ['"', sqc] (pyStrip p))
  let priority_nums := (priorities.filter (fun p => !p.isEmpty)).map _normalize_priority_value
  let priority_conditions := priority_nums.map (fun p => "priority=".data ++ p)
  joinSep "^OR".data priority_conditions

/-- Model of `_format_single_priority`: format a single priority value. -/
def _format_single_priority (value : PyStr) : PyStr :=
  "priority=".data ++ _normalize_priority_value value

/-- Body of `_parse_priority_list` after `value = value.strip()`. -/
def _parse_priority_list_stripped (value : PyStr) : PyStr :=
  if containsSub value "^OR".data then value
  else if containsSub value ",".data then _process_comma_separated_priorities value
  else if !value.isEmpty then _format_single_priority value
  else value

/-- Model of `_parse_priority_list`: parse a priority list into ServiceNow OR syntax
(empty or non-string input yields the empty string; otherwise the stripped
value is dispatched). -/
def _parse_priority_list (value : PyStr) : PyStr :=
  if (pyStrip value).isEmpty then []
  else _parse_priority_list_stripped (pyStrip value)

/-- The single entry of the `known_callers` dict in `_parse_caller_exclusions`. -/
def known_caller_logicmonitor_id : PyStr := "1727339e47d99190c43d3171e36d43ad".data

/-- Body of `_parse_caller_exclusions` after `value = value.strip()`.
The `known_callers` dict has the single key `logicmonitor`, so the
membership test is an equality test. -/
def _parse_caller_exclusions_stripped (value : PyStr) : PyStr :=
  if pyLower value = "logicmonitor".data then
    "caller_id!=".data ++ known_caller_logicmonitor_id
  else if containsSub value ",".data then
    let clean_value := pyStripChars ['[', ']', '"', sqc] value
    let caller_ids := (pySplit ',' clean_value).map (fun c => pyStripChars ['"', sqc] (pyStrip c))
    let exclusions := (caller_ids.filter (fun c => !c.isEmpty)).map
      (fun caller_id => "caller_id!=".data ++ caller_id)
    joinSep "^".data exclusions
  else if !value.isEmpty && !(List.isPrefixOf "caller_id!=".data value) then
    "caller_id!=".data ++ value
  else value

/-- Model of `_parse_caller_exclusions`: rewrite a caller exclusion list into
NOT-EQUALS syntax (empty or non-string input yields the empty string;
otherwise the stripped value is dispatched). -/
def _parse_caller_exclusions (value : PyStr) : PyStr :=
  if (pyStrip value).isEmpty then []
  else _parse_caller_exclusions_stripped (pyStrip value)

-- ### Proleptic-Gregorian day arithmetic (model of `datetime` / `timedelta`)

/-- Day number of a civil date (days since 1970-01-01, Hinnant algorithm).
Models `datetime(y, m, d)` for the years `1 ≤ y ≤ 9999` that `datetime`
accepts; all intermediate quantities are nonnegative there, so truncating
`Int` division agrees with floor division. -/
def daysFromCivil (y m d : Int) : Int :=
  let y2 := y - (if m ≤ 2 then 1 else 0)
  let era := y2 / 400
  let yoe := y2 - era * 400
  let mp := m + (if 2 < m then -3 else 9)
  let doy := (153 * mp + 2) / 5 + d - 1
  let doe := yoe * 365 + yoe / 4 - yoe / 100 + doy
  era * 146097 + doe - 719468

/-- Inverse of `daysFromCivil` (civil date of a day number). -/
def civilFromDays (z0 : Int) : Int × Int × Int :=
  let z := z0 + 719468
  let era := z / 146097
  let doe := z - era * 146097
  let yoe := (doe - doe / 1460 + doe / 36524 - doe / 146097) / 365
  let y := yoe + era * 400
  let doy := doe - (365 * yoe + yoe / 4 - yoe / 100)
  let mp := (5 * doy + 2) / 153
  let d := doy - (153 * mp + 2) / 5 + 1
  let m := mp + (if mp < 10 then 3 else -9)
  (y + (if m ≤ 2 then 1 else 0), m, d)

/-- Model of `datetime.weekday()` for a day number: Monday is 0, Sunday is 6
(1970-01-01 was a Thursday, weekday 3). -/
def pyWeekday (z : Int) : Int := (z + 3) % 7

/-- Decimal digits of a natural number (no padding). -/
def natToStr (n : Nat) : PyStr := Nat.toDigits 10 n

/-- Zero-pad a numeral to at least two digits (`%02d`). -/
def pad2 (n : Nat) : PyStr :=
  let ds := natToStr n
  List.replicate (2 - ds.length) '0' ++ ds

/-- Decimal rendering of an `Int` (Python `str` of an int). -/
def intToStr (z : Int) : PyStr :=
  if z < 0 then '-' :: natToStr z.natAbs else natToStr z.natAbs

/-- Model of `strftime` with format `%Y-%m-%d` on the civil date of a day number
(glibc does not zero-pad `%Y`; all dates reached in this development have
four-digit years). -/
def fmtDays (z : Int) : PyStr :=
  let c := civilFromDays z
  intToStr c.1 ++ "-".data ++ pad2 c.2.1.natAbs ++ "-".data ++ pad2 c.2.2.natAbs

/-- Python f-string date `f"{year}-{month:02d}-{day:02d}"` used by the
month-name grammars. -/
def fmtYMD (y m d : Nat) : PyStr :=
  natToStr y ++ "-".data ++ pad2 m ++ "-".data ++ pad2 d

-- ### Hand-compiled regular-expression matchers for the six date grammars
-- Each `match...At` function matches the pattern anchored at the start of the
-- input; `searchIt` scans candidate start positions from the left, which
-- together reproduce the leftmost-match semantics of `re.search`.
-- Alternatives are tried in the same priority order as the backtracking
-- engine: longer counted repetitions first, optional groups present first.

/-- First successful application of `f` over `xs` (backtracking alternatives). -/
def firstSome {α β : Type} : List α → (α → Option β) → Option β
  | [], _ => none
  | a :: t, f => match f a with | some b => some b | none => firstSome t f

/-- Consume a literal prefix. -/
def stripPrefixQ (p l : PyStr) : Option PyStr :=
  if List.isPrefixOf p l then some (l.drop p.length) else none

/-- Numeric value of a decimal digit character. -/
def digitVal (c : Char) : Nat := c.toNat - 48

/-- Alternatives for a greedy `\d{1,2}`: two digits first, then one digit. -/
def digitAlts : PyStr → List (Nat × PyStr)
  | a :: b :: t =>
    if a.isDigit && b.isDigit then [(digitVal a * 10 + digitVal b, t), (digitVal a, b :: t)]
    else if a.isDigit then [(digitVal a, b :: t)]
    else []
  | [a] => if a.isDigit then [(digitVal a, [])] else []
  | [] => []

/-- Match `\d{4}` and return its value together with the rest of the input. -/
def parse4digitsR : PyStr → Option (Nat × PyStr)
  | a :: b :: c :: d :: rest =>
    if a.isDigit && b.isDigit && c.isDigit && d.isDigit then
      some (((digitVal a * 10 + digitVal b) * 10 + digitVal c) * 10 + digitVal d, rest)
    else none
  | _ => none

/-- A `\w` word character (ASCII: letters, digits, underscore). -/
def isWordChar (c : Char) : Bool := c.isAlphanum || c = '_'

/-- Take exactly `n` word characters if available. -/
def wordTake (n : Nat) (l : PyStr) : Option (PyStr × PyStr) :=
  if n ≤ l.length ∧ (l.take n).all isWordChar then some (l.take n, l.drop n) else none

/-- Alternatives for a greedy `\w{3,9}`: longest first. -/
def wordAlts (l : PyStr) : List (PyStr × PyStr) :=
  [9, 8, 7, 6, 5, 4, 3].filterMap (fun n => wordTake n l)

/-- Match `,? ` (optional comma, then a mandatory space). -/
def optCommaSpace : PyStr → Option PyStr
  | ',' :: ' ' :: t => some t
  | ' ' :: t => some t
  | _ => none

/-- Match `, ?` (a comma, then an optional space). -/
def commaOptSpace : PyStr → Option PyStr
  | ',' :: ' ' :: t => some t
  | ',' :: t => some t
  | _ => none

/-- Scan start positions from the left: leftmost-match search. -/
def searchIt {α : Type} (f : PyStr → Option α) : PyStr → Option α
  | [] => f []
  | a :: t =>
    match f (a :: t) with
    | some r => some r
    | none => searchIt f t

/-- Anchored matcher for `week (\d{1,2}) (?:of )?(\d{4})`. -/
def matchWeekAt (l : PyStr) : Option (Nat × Nat) :=
  match stripPrefixQ "week ".data l with
  | none => none
  | some r =>
    firstSome (digitAlts r) fun p =>
      match p.2 with
      | ' ' :: r3 =>
        match (match stripPrefixQ "of ".data r3 with
               | some r4 =>
                 (match parse4digitsR r4 with
                  | some q => some q.1
                  | none => none)
               | none => none) with
        | some y => some (p.1, y)
        | none =>
          match parse4digitsR r3 with
          | some q => some (p.1, q.1)
          | none => none
      | _ => none

/-- Model of `_parse_week_format`: parse `Week X YYYY`, computing the Monday-start
week from January 4 of the year, exactly as
`jan_4 - timedelta(days=jan_4.weekday()) + timedelta(weeks=week_num - 1)`. -/
def _parse_week_format (text : PyStr) : Option (PyStr × PyStr) :=
  match searchIt matchWeekAt text with
  | none => none
  | some (week_num, year) =>
    let jan_4 := daysFromCivil (Int.ofNat year) 1 4
    let week_start := jan_4 - pyWeekday jan_4 + 7 * ((Int.ofNat week_num) - 1)
    let week_end := week_start + 6
    some (fmtDays week_start, fmtDays week_end)

/-- Model of `MONTH_NAME_TO_NUMBER` from `constants.py`. -/
def MONTH_NAME_TO_NUMBER : List (PyStr × Nat) :=
  [("january".data, 1), ("february".data, 2), ("march".data, 3), ("april".data, 4),
   ("may".data, 5), ("june".data, 6), ("july".data, 7), ("august".data, 8),
   ("september".data, 9), ("october".data, 10), ("november".data, 11), ("december".data, 12)]

/-- Anchored matcher for `(\w{3,9}) (\d{1,2})-(\d{1,2}), ?(\d{4})`. -/
def matchMonthRangeAt (l : PyStr) : Option (PyStr × Nat × Nat × Nat) :=
  firstSome (wordAlts l) fun w =>
    match w.2 with
    | ' ' :: r2 =>
      firstSome (digitAlts r2) fun p1 =>
        match p1.2 with
        | '-' :: r4 =>
          firstSome (digitAlts r4) fun p2 =>
            match commaOptSpace p2.2 with
            | some r6 => (parse4digitsR r6).map (fun q => (w.1, p1.1, p2.1, q.1))
            | none => none
        | _ => none
    | _ => none

/-- Model of `_parse_month_range_format`: parse `Month DD-DD, YYYY`. -/
def _parse_month_range_format (text : PyStr) : Option (PyStr × PyStr) :=
  match searchIt matchMonthRangeAt text with
  | none => none
  | some (month_name, start_day, end_day, year) =>
    match List.lookup (pyLower month_name) MONTH_NAME_TO_NUMBER with
    | none => none
    | some month_num => some (fmtYMD year month_num start_day, fmtYMD year month_num end_day)

/-- Match `\d{4}-\d{2}-\d{2}` and return the matched text with the rest. -/
def takeIsoDate : PyStr → Option (PyStr × PyStr)
  | y1 :: y2 :: y3 :: y4 :: '-' :: m1 :: m2 :: '-' :: d1 :: d2 :: rest =>
    if y1.isDigit && y2.isDigit && y3.isDigit && y4.isDigit &&
       m1.isDigit && m2.isDigit && d1.isDigit && d2.isDigit then
      some ([y1, y2, y3, y4, '-', m1, m2, '-', d1, d2], rest)
    else none
  | _ => none

/-- Anchored matcher for `(\d{4}-\d{2}-\d{2}) to (\d{4}-\d{2}-\d{2})`. -/
def matchIsoRangeAt (l : PyStr) : Option (PyStr × PyStr) :=
  match takeIsoDate l with
  | none => none
  | some (d1, r1) =>
    match stripPrefixQ " to ".data r1 with
    | none => none
    | some r2 =>
      match takeIsoDate r2 with
      | none => none
      | some (d2, _) => some (d1, d2)

/-- Model of `_parse_iso_date_range`: parse `YYYY-MM-DD to YYYY-MM-DD`. -/
def _parse_iso_date_range (text : PyStr) : Option (PyStr × PyStr) :=
  searchIt matchIsoRangeAt text

/-- Shared core of the cross-month grammars:
`(\w{3,9}) (\d{1,2}),? (\d{4})<sep>(\w{3,9}) (\d{1,2}),? (\d{4})`
where `<sep>` is ` to ` or ` and `. -/
def matchMonthDayYearPairAt (sep : PyStr) (l : PyStr) :
    Option (PyStr × Nat × Nat × PyStr × Nat × Nat) :=
  firstSome (wordAlts l) fun w1 =>
    match w1.2 with
    | ' ' :: r2 =>
      firstSome (digitAlts r2) fun p1 =>
        match optCommaSpace p1.2 with
        | none => none
        | some r3 =>
          match parse4digitsR r3 with
          | none => none
          | some (y1, r4) =>
            match stripPrefixQ sep r4 with
            | none => none
            | some r5 =>
              firstSome (wordAlts r5) fun w2 =>
                match w2.2 with
                | ' ' :: r6 =>
                  firstSome (digitAlts r6) fun p2 =>
                    match optCommaSpace p2.2 with
                    | none => none
                    | some r7 =>
                      match parse4digitsR r7 with
                      | none => none
                      | some (y2, _) => some (w1.1, p1.1, y1, w2.1, p2.1, y2)
                | _ => none
    | _ => none

/-- Anchored matcher for
`(?:from )?(\w{3,9}) (\d{1,2}),? (\d{4}) to (\w{3,9}) (\d{1,2}),? (\d{4})`:
the optional `from ` branch is tried first, as the engine does. -/
def matchCrossMonthAt (l : PyStr) : Option (PyStr × Nat × Nat × PyStr × Nat × Nat) :=
  match stripPrefixQ "from ".data l with
  | some l2 =>
    match matchMonthDayYearPairAt " to ".data l2 with
    | some r => some r
    | none => matchMonthDayYearPairAt " to ".data l
  | none => matchMonthDayYearPairAt " to ".data l

/-- Look up both month names and format the two endpoint dates; returns
`none` when either month name is unrecognized (the grammar then reports
no match without retrying the search, as the Python function does). -/
def formatMonthPair (r : PyStr × Nat × Nat × PyStr × Nat × Nat) : Option (PyStr × PyStr) :=
  match List.lookup (pyLower r.1) MONTH_NAME_TO_NUMBER,
        List.lookup (pyLower r.2.2.2.1) MONTH_NAME_TO_NUMBER with
  | some m1, some m2 =>
    some (fmtYMD r.2.2.1 m1 r.2.1, fmtYMD r.2.2.2.2.2 m2 r.2.2.2.2.1)
  | _, _ => none

/-- Model of `_parse_cross_month_range`: parse `Month DD YYYY to Month DD YYYY`. -/
def _parse_cross_month_range (text : PyStr) : Option (PyStr × PyStr) :=
  match searchIt matchCrossMonthAt text with
  | none => none
  | some r => formatMonthPair r

/-- Anchored matcher for
`between (\w{3,9}) (\d{1,2}),? (\d{4}) and (\w{3,9}) (\d{1,2}),? (\d{4})`. -/
def matchBetweenAt (l : PyStr) : Option (PyStr × Nat × Nat × PyStr × Nat × Nat) :=
  match stripPrefixQ "between ".data l with
  | none => none
  | some r => matchMonthDayYearPairAt " and ".data r

/-- Model of `_parse_between_format`: parse `between Month DD, YYYY and Month DD, YYYY`. -/
def _parse_between_format (text : PyStr) : Option (PyStr × PyStr) :=
  match searchIt matchBetweenAt text with
  | none => none
  | some r => formatMonthPair r

/-- Core of the year-at-end grammar:
`(\w{3,9}) (\d{1,2}) to (\w{3,9}) (\d{1,2}),? (\d{4})`. -/
def matchYearAtEndCoreAt (l : PyStr) : Option (PyStr × Nat × PyStr × Nat × Nat) :=
  firstSome (wordAlts l) fun w1 =>
    match w1.2 with
    | ' ' :: r2 =>
      firstSome (digitAlts r2) fun p1 =>
        match stripPrefixQ " to ".data p1.2 with
        | none => none
        | some r3 =>
          firstSome (wordAlts r3) fun w2 =>
            match w2.2 with
            | ' ' :: r4 =>
              firstSome (digitAlts r4) fun p2 =>
                match optCommaSpace p2.2 with
                | none => none
                | some r5 =>
                  match parse4digitsR r5 with
                  | none => none
                  | some (y, _) => some (w1.1, p1.1, w2.1, p2.1, y)
            | _ => none
    | _ => none

/-- Anchored matcher for
`(?:from )?(\w{3,9}) (\d{1,2}) to (\w{3,9}) (\d{1,2}),? (\d{4})`. -/
def matchYearAtEndAt (l : PyStr) : Option (PyStr × Nat × PyStr × Nat × Nat) :=
  match stripPrefixQ "from ".data l with
  | some l2 =>
    match matchYearAtEndCoreAt l2 with
    | some r => some r
    | none => matchYearAtEndCoreAt l
  | none => matchYearAtEndCoreAt l

/-- Model of `_parse_year_at_end_format`: parse `Month DD to Month DD YYYY`. -/
def _parse_year_at_end_format (text : PyStr) : Option (PyStr × PyStr) :=
  match searchIt matchYearAtEndAt text with
  | none => none
  | some (m1, d1, m2, d2, y) =>
    match List.lookup (pyLower m1) MONTH_NAME_TO_NUMBER,
          List.lookup (pyLower m2) MONTH_NAME_TO_NUMBER with
    | some n1, some n2 => some (fmtYMD y n1 d1, fmtYMD y n2 d2)
    | _, _ => none

-- ### Injection guard and parser pipeline (`_validate_regex_input`,
-- `_parse_date_range_from_text`)

/-- A Python value passed where a `str` is expected: either an actual string
or a value of some other type (the `isinstance` check distinguishes them). -/
inductive PyValue : Type
  | ofStr (s : PyStr)
  | nonStr
deriving DecidableEq

/-- Model of `_validate_regex_input`: pre-validate input to bound regex work.
Rejects non-strings, strings longer than 200 characters, strings with more
than 50 spaces, and strings with more than 20 hyphens. -/
def _validate_regex_input : PyValue → Bool
  | .nonStr => false
  | .ofStr s =>
    if 200 < s.length then false
    else if 50 < List.count ' ' s then false
    else if 20 < List.count '-' s then false
    else true

/-- The date parser registry of `_parse_date_range_from_text`, in source
order. -/
def date_range_parsers : List (PyStr → Option (PyStr × PyStr)) :=
  [_parse_week_format, _parse_month_range_format, _parse_iso_date_range,
   _parse_cross_month_range, _parse_between_format, _parse_year_at_end_format]

/-- Try each registered parser in sequence; first success wins. -/
def try_date_parsers : List (PyStr → Option (PyStr × PyStr)) → PyStr → Option (PyStr × PyStr)
  | [], _ => none
  | p :: ps, t =>
    match p t with
    | some r => some r
    | none => try_date_parsers ps t

/-- The guard-then-dispatch shape of `_parse_date_range_from_text`,
parameterized by the parser registry (the guard runs before any grammar
is consulted). -/
def parse_date_range_with (ps : List (PyStr → Option (PyStr × PyStr))) (v : PyValue) :
    Option (PyStr × PyStr) :=
  if _validate_regex_input v then
    match v with
    | .ofStr s => try_date_parsers ps (pyStrip (pyLower s))
    | .nonStr => none
  else none

/-- Model of `_parse_date_range_from_text`: guard, lower-case and trim, then try the
six grammars in their fixed order. -/
def _parse_date_range_from_text (v : PyValue) : Option (PyStr × PyStr) :=
  parse_date_range_with date_range_parsers v

-- ### Condition dispatcher (`_has_operator_in_value` .. `_build_query_string`)

/-- Model of `_has_operator_in_value`: does the value already contain a comparison
operator (tested in source order over the operator list)? -/
def _has_operator_in_value (value : PyStr) : Bool :=
  containsSub value ">=".data || containsSub value "<=".data ||
  containsSub value ">".data || containsSub value "<".data || containsSub value "=".data

/-- Model of `_is_complete_servicenow_filter`: is the value already a complete
ServiceNow filter (OR connective or an ON token present)? -/
def _is_complete_servicenow_filter (value : PyStr) : Bool :=
  containsSub value "^OR".data || containsSub value "ON".data

/-- Model of `_handle_complete_query_condition`: pass the value through verbatim. -/
def _handle_complete_query_condition (value : PyStr) : PyStr := value

/-- The literal pieces of the BETWEEN fragment
`sys_created_onBETWEENjavascript:gs.dateGenerate(<q><start><q>,<q>00:00:00<q>)@javascript:gs.dateGenerate(<q><end><q>,<q>23:59:59<q>)`
where `<q>` is an apostrophe. -/
def dateGenA : PyStr := "sys_created_onBETWEENjavascript:gs.dateGenerate(".data ++ [sqc]
def dateGenB : PyStr :=
  [sqc] ++ ",".data ++ [sqc] ++ "00:00:00".data ++ [sqc] ++
  ")@javascript:gs.dateGenerate(".data ++ [sqc]
def dateGenC : PyStr := [sqc] ++ ",".data ++ [sqc] ++ "23:59:59".data ++ [sqc] ++ ")".data

/-- Model of `_handle_date_range_condition`: date range parsing for the
`sys_created_on` field. -/
def _handle_date_range_condition (field value : PyStr) : Option PyStr :=
  if field = "sys_created_on".data then
    if containsSub value "BETWEEN".data then some value
    else if List.isPrefixOf ">=".data value || List.isPrefixOf "<=".data value then
      some (field ++ value)
    else
      match _parse_date_range_from_text (.ofStr value) with
      | some (start_date, end_date) =>
        some (dateGenA ++ start_date ++ dateGenB ++ end_date ++ dateGenC)
      | none => none
  else none

/-- Model of `_handle_priority_condition`: priority list parsing. -/
def _handle_priority_condition (field value : PyStr) : Option PyStr :=
  if field = "priority".data ∧
     (containsSub value ",".data || List.isPrefixOf "P".data (pyUpper value)) then
    some (_parse_priority_list value)
  else none

/-- Model of `_handle_caller_exclusion_condition`: caller exclusions. -/
def _handle_caller_exclusion_condition (field value : PyStr) : Option PyStr :=
  if field = "exclude_caller".data ∨ field = "caller_exclusion".data then
    some (_parse_caller_exclusions value)
  else none

/-- Model of `_handle_servicenow_filter_condition`: complete ServiceNow filters. -/
def _handle_servicenow_filter_condition (_field value : PyStr) : Option PyStr :=
  if _is_complete_servicenow_filter value then some value else none

/-- Model of `_handle_operator_condition`: direct operator syntax. -/
def _handle_operator_condition (field value : PyStr) : Option PyStr :=
  if _has_operator_in_value value then some (field ++ value) else none

/-- Model of `_handle_suffix_operator_condition`: suffix-based operators and the
CONTAINS passthrough. -/
def _handle_suffix_operator_condition (field value : PyStr) : Option PyStr :=
  if List.isSuffixOf "_gte".data field then
    some (field.take (field.length - 4) ++ ">=".data ++ value)
  else if List.isSuffixOf "_lte".data field then
    some (field.take (field.length - 4) ++ "<=".data ++ value)
  else if List.isSuffixOf "_gt".data field then
    some (field.take (field.length - 3) ++ ">".data ++ value)
  else if List.isSuffixOf "_lt".data field then
    some (field.take (field.length - 3) ++ "<".data ++ value)
  else if containsSub (pyUpper field) "CONTAINS".data then some field
  else none

/-- Model of `_handle_exact_match_condition`: the default equality fragment. -/
def _handle_exact_match_condition (field value : PyStr) : PyStr :=
  field ++ "=".data ++ value

/-- The condition handler registry of `_build_query_condition`, ordered by
specificity exactly as in the source. -/
def condition_handlers : List (PyStr → PyStr → Option PyStr) :=
  [_handle_date_range_condition, _handle_priority_condition,
   _handle_caller_exclusion_condition, _handle_servicenow_filter_condition,
   _handle_operator_condition, _handle_suffix_operator_condition]

/-- Try each condition handler until one matches. -/
def try_condition_handlers (hs : List (PyStr → PyStr → Option PyStr))
    (field value : PyStr) : Option PyStr :=
  match hs with
  | [] => none
  | h :: t =>
    match h field value with
    | some r => some r
    | none => try_condition_handlers t field value

/-- Model of `_build_query_condition`: build one query condition for a field/value
pair (pseudo-fields first, then the handler chain, then exact match). -/
def _build_query_condition (field value : PyStr) : PyStr :=
  if field = "_complete_query".data then _handle_complete_query_condition value
  else if field = "_complete_caller_exclusion".data then value
  else
    match try_condition_handlers condition_handlers field value with
    | some r => r
    | none => _handle_exact_match_condition field value

/-- Model of `_build_query_string`: AND-join the per-entry conditions of a filter
mapping (a `None` filters argument behaves like the empty mapping, since
`if not filters` guards the body). -/
def _build_query_string (filters : List (PyStr × PyStr)) : PyStr :=
  if filters.isEmpty then []
  else joinSep "^".data (filters.map (fun fv => _build_query_condition fv.1 fv.2))

-- ### Security exclusion filters and configuration (`constants.py`)

/-- Model of `ENABLE_INCIDENT_CATEGORY_FILTERING` from `constants.py`. -/
def ENABLE_INCIDENT_CATEGORY_FILTERING : Bool := true

/-- Model of `EXCLUDED_INCIDENT_CATEGORIES` from `constants.py`. -/
def EXCLUDED_INCIDENT_CATEGORIES : List PyStr :=
  ["Payroll".data, "People Support".data, "Workplace".data]

/-- Model of `ENABLE_SC_CATALOG_FILTERING` from `constants.py`. -/
def ENABLE_SC_CATALOG_FILTERING : Bool := true

/-- Model of `EXCLUDED_SC_CATALOG_CATEGORIES` from `constants.py`. -/
def EXCLUDED_SC_CATALOG_CATEGORIES : List PyStr := ["People_Pay".data]

/-- Model of `EXCLUDED_SC_ASSIGNMENT_GROUPS` from `constants.py`. -/
def EXCLUDED_SC_ASSIGNMENT_GROUPS : List PyStr :=
  ["Payroll Managers".data, "Payroll Representatives".data, "Payroll Specialists".data,
   "People Business Partners".data, "People Business Partners - SGSC".data,
   "People Knowledge Approvers".data, "People Support Tier 1".data,
   "People Support Tier 2".data, "People Technology Team".data,
   "Talent Acquisition".data, "SG_Benefits Allowed Variable View".data]

/-- Model of `SC_CATALOG_TABLES` from `constants.py`. -/
def SC_CATALOG_TABLES : List PyStr := ["sc_request".data, "sc_req_item".data, "sc_task".data]

/-- Model of `_apply_incident_category_filter`: append the category exclusions to the
query for the incident table (when the toggle is enabled). -/
def _apply_incident_category_filter (table_name existing_query : PyStr) : PyStr :=
  if ¬ table_name = "incident".data ∨ ENABLE_INCIDENT_CATEGORY_FILTERING = false then
    existing_query
  else
    let category_filters := EXCLUDED_INCIDENT_CATEGORIES.map
      (fun category => "category!=".data ++ category)
    let category_query := joinSep "^".data category_filters
    if !existing_query.isEmpty then existing_query ++ "^".data ++ category_query
    else category_query

/-- Model of `_apply_sc_catalog_filter`: append catalog and assignment-group
exclusions to the query for the service catalog tables (when the toggle is
enabled). -/
def _apply_sc_catalog_filter (table_name existing_query : PyStr) : PyStr :=
  if ¬ table_name ∈ SC_CATALOG_TABLES ∨ ENABLE_SC_CATALOG_FILTERING = false then
    existing_query
  else
    let catalog_filters := EXCLUDED_SC_CATALOG_CATEGORIES.map
      (fun category => "cat_item.sc_catalogs.title!=".data ++ category)
    let group_filters := EXCLUDED_SC_ASSIGNMENT_GROUPS.map
      (fun group => "assignment_group.name!=".data ++ group)
    let exclusion_query := joinSep "^".data (catalog_filters ++ group_filters)
    if !existing_query.isEmpty then existing_query ++ "^".data ++ exclusion_query
    else exclusion_query

-- ### Percent-encoding (`_encode_query_string`)

/-- UTF-8 bytes of a character (as natural numbers below 256). -/
def utf8Bytes (c : Char) : List Nat :=
  let n := c.toNat
  if n < 128 then [n]
  else if n < 2048 then [192 + n / 64, 128 + n % 64]
  else if n < 65536 then [224 + n / 4096, 128 + (n / 64) % 64, 128 + n % 64]
  else [240 + n / 262144, 128 + (n / 4096) % 64, 128 + (n / 64) % 64, 128 + n % 64]

/-- Upper-case hexadecimal digit. -/
def hexDigit (n : Nat) : Char :=
  if n < 10 then Char.ofNat (48 + n) else Char.ofNat (55 + n)

/-- The `safe` argument of the `quote` call: `=<>&^():@!`. -/
def quoteSafeChars : PyStr := "=<>&^():@!".data

/-- The characters `urllib.parse.quote` never encodes (letters, digits,
underscore, period, hyphen, tilde), as byte values. -/
def isUnreservedByte (n : Nat) : Bool :=
  (48 ≤ n && n ≤ 57) || (65 ≤ n && n ≤ 90) || (97 ≤ n && n ≤ 122) ||
  n = 95 || n = 46 || n = 45 || n = 126

/-- Percent-encode one byte unless it is unreserved or in the safe set. -/
def quoteByte (b : Nat) : PyStr :=
  if isUnreservedByte b || quoteSafeChars.any (fun c => c.toNat = b) then [Char.ofNat b]
  else ['%', hexDigit (b / 16), hexDigit (b % 16)]

/-- Model of `_encode_query_string`: `quote(query_string, safe=<the ServiceNow set>)`
over the UTF-8 bytes of the query string. -/
def _encode_query_string (query_string : PyStr) : PyStr :=
  (((query_string.map utf8Bytes).flatten).map quoteByte).flatten

-- ### Paginated executor (`_make_paginated_request`)

/-- The `while` loop of `_make_paginated_request`.  The transport function
models `make_nws_request` on the URL for a given `sysparm_offset`; `none`
models a missing, malformed or empty `result` payload (Python tests
`not data or not data.get("result")`, and the redundant
`if not batch_results` re-checks emptiness, so an empty batch is folded
into `none`).  The second component of the state counts transport
requests issued so far.  Lean accepts the definition only with a
termination proof, so totality of the loop is established by
construction: the accumulated length grows by at least one whenever the
loop continues. -/
def paginate_loop {α : Type} (transport : Nat → Option (List α)) (max_results page_size : Nat)
    (acc : List α) (offset reqs : Nat) : List α × Nat :=
  if hcont : acc.length < max_results then
    match transport offset with
    | none => (acc, reqs + 1)
    | some batch =>
      if hemp : batch.isEmpty then (acc, reqs + 1)
      else if hshort : batch.length < page_size then (acc ++ batch, reqs + 1)
      else paginate_loop transport max_results page_size (acc ++ batch)
        (offset + page_size) (reqs + 1)
  else (acc, reqs)
termination_by max_results - acc.length
decreasing_by
  simp only [List.length_append]
  have hb : batch ≠ [] := by
    intro h
    rw [h] at hemp
    exact hemp rfl
  have hp : 0 < batch.length := List.length_pos.mpr hb
  omega

/-- Model of `_make_paginated_request`: run the pagination loop from offset 0 and
truncate the accumulated results to `max_results`.  The first component is
the return value of the Python function; the second counts the transport
requests performed. -/
def _make_paginated_request {α : Type} (transport : Nat → Option (List α))
    (max_results page_size : Nat) : List α × Nat :=
  let out := paginate_loop transport max_results page_size [] 0 0
  (out.1.take max_results, out.2)

-- ### Field catalogs and table configuration (`constants.py`)

/-- Model of `ESSENTIAL_FIELDS` from `constants.py`. -/
def ESSENTIAL_FIELDS : List (PyStr × List PyStr) :=
  [("incident".data, ["number".data, "short_description".data, "priority".data,
     "state".data, "category".data, "sys_created_on".data]),
   ("change_request".data, ["number".data, "short_description".data, "priority".data,
     "state".data, "sys_created_on".data]),
   ("universal_request".data, ["number".data, "short_description".data, "priority".data,
     "state".data, "sys_created_on".data]),
   ("kb_knowledge".data, ["number".data, "short_description".data, "kb_category".data,
     "state".data, "sys_created_on".data]),
   ("vtb_task".data, ["number".data, "short_description".data, "priority".data,
     "state".data, "sys_created_on".data]),
   ("task_sla".data, ["task".data, "sla".data, "stage".data, "business_percentage".data,
     "active".data, "sys_created_on".data])]

/-- Model of `DETAIL_FIELDS` from `constants.py`. -/
def DETAIL_FIELDS : List (PyStr × List PyStr) :=
  [("incident".data, ["number".data, "short_description".data, "description".data,
     "priority".data, "state".data, "category".data, "sys_created_on".data,
     "assigned_to".data, "assignment_group".data, "work_notes".data, "comments".data,
     "u_reference_1".data, "company".data, "cmdb_ci".data, "correlation_id".data,
     "major_incident_state".data]),
   ("change_request".data, ["number".data, "short_description".data, "description".data,
     "priority".data, "state".data, "sys_created_on".data, "assigned_to".data,
     "assignment_group".data, "work_notes".data, "comments".data, "u_reference_1".data,
     "company".data, "cmdb_ci".data]),
   ("universal_request".data, ["number".data, "short_description".data, "priority".data,
     "state".data, "sys_created_on".data, "assigned_to".data, "assignment_group".data,
     "comments".data, "u_reference_1".data, "company".data, "cmdb_ci".data]),
   ("kb_knowledge".data, ["number".data, "short_description".data, "text".data,
     "kb_category".data, "state".data, "sys_created_on".data, "assigned_to".data]),
   ("vtb_task".data, ["number".data, "short_description".data, "priority".data,
     "state".data, "sys_created_on".data, "assigned_to".data, "assignment_group".data,
     "work_notes".data, "comments".data]),
   ("task_sla".data, ["task".data, "sla".data, "stage".data, "business_percentage".data,
     "active".data, "sys_created_on".data, "breach_time".data, "business_time_left".data,
     "duration".data, "has_breached".data, "business_duration".data,
     "business_elapsed_time".data, "planned_end_time".data])]

/-- The slice of one `TABLE_CONFIGS` entry consulted by the modelled
functions.  Of the keys in `constants.py` (`display_name`, `api_name`,
`supports_work_notes`, `supports_comments`, `number_prefix`,
`priority_field`, `state_field`) only `priority_field` is read by
`get_records_by_priority`; the others are carried by no modelled code
path and are omitted. -/
structure TableConfig where
  priority_field : Option PyStr
deriving DecidableEq

/-- Model of `TABLE_CONFIGS` from `constants.py` (the `priority_field` slice). -/
def TABLE_CONFIGS : List (PyStr × TableConfig) :=
  [("incident".data, ⟨some "priority".data⟩),
   ("change_request".data, ⟨some "priority".data⟩),
   ("sc_req_item".data, ⟨some "priority".data⟩),
   ("universal_request".data, ⟨some "priority".data⟩),
   ("kb_knowledge".data, ⟨none⟩),
   ("vtb_task".data, ⟨some "priority".data⟩),
   ("task_sla".data, ⟨none⟩)]

/-- Python truthiness of `table_config and table_config.get("priority_field")`:
the table must be configured and its priority field must be a non-empty
string. -/
def table_priority_supported (table_name : PyStr) : Bool :=
  match List.lookup table_name TABLE_CONFIGS with
  | none => false
  | some cfg =>
    match cfg.priority_field with
    | none => false
    | some pf => !pf.isEmpty

/-- The field list chosen by
`DETAIL_FIELDS.get(t, []) if detailed else ESSENTIAL_FIELDS.get(t, [])`. -/
def table_fields (table_name : PyStr) (detailed : Bool) : List PyStr :=
  if detailed then
    match List.lookup table_name DETAIL_FIELDS with
    | some fs => fs
    | none => []
  else
    match List.lookup table_name ESSENTIAL_FIELDS with
    | some fs => fs
    | none => []

-- ### Error message constants (`constants.py`)

/-- Model of `TABLE_NO_PRIORITY_SUPPORT_ERROR.format(table_name=t)`. -/
def TABLE_NO_PRIORITY_SUPPORT_ERROR_msg (table_name : PyStr) : PyStr :=
  "Table ".data ++ table_name ++ " does not support priority filtering".data

/-- Model of `NO_FIELD_CONFIG_ERROR.format(table_name=t)`. -/
def NO_FIELD_CONFIG_ERROR_msg (table_name : PyStr) : PyStr :=
  "No field configuration found for table ".data ++ table_name

/-- Model of `NO_VALID_PRIORITIES_ERROR`. -/
def NO_VALID_PRIORITIES_ERROR : PyStr := "No valid priorities provided".data

-- ### Query facade functions

/-- Model of `query_table_with_filters`, modelled up to its transport call: the query
string after the dispatcher and both security filters (the value of
`query_string` at line 679, before encoding). -/
def query_table_with_filters_assembled (table_name : PyStr)
    (filters : List (PyStr × PyStr)) : PyStr :=
  _apply_sc_catalog_filter table_name
    (_apply_incident_category_filter table_name (_build_query_string filters))

/-- The `fields` expression of `query_table_with_filters`:
`params.fields or ESSENTIAL_FIELDS.get(table_name, [...])`. -/
def resolve_fields (table_name : PyStr) (fieldsOpt : Option (List PyStr)) : List PyStr :=
  match fieldsOpt with
  | some fs => fs
  | none =>
    match List.lookup table_name ESSENTIAL_FIELDS with
    | some fs => fs
    | none => ["number".data, "short_description".data]

/-- The `base_url` f-string shared by the filtered-query facades:
`{base}/api/now/table/{table}?sysparm_fields={fields}&sysparm_display_value=true`
(`base` stands for the externally supplied `NWS_API_BASE`). -/
def snow_base_url (base table_name : PyStr) (fields : List PyStr) : PyStr :=
  base ++ "/api/now/table/".data ++ table_name ++ "?sysparm_fields=".data ++
    joinSep ",".data fields ++ "&sysparm_display_value=true".data

/-- The request URL built by `query_table_with_filters` before pagination
parameters are appended.  The `sysparm_query` parameter is appended only
when the encoded query is non-empty (`if encoded_query:`); a `None`
filters argument reaches `_build_query_string` as falsy and yields the
empty query string. -/
def query_table_with_filters_url (base table_name : PyStr)
    (filtersOpt : Option (List (PyStr × PyStr))) (fieldsOpt : Option (List PyStr)) : PyStr :=
  if !(_encode_query_string
      (query_table_with_filters_assembled table_name (filtersOpt.getD []))).isEmpty then
    snow_base_url base table_name (resolve_fields table_name fieldsOpt) ++
      "&sysparm_query=".data ++
      _encode_query_string (query_table_with_filters_assembled table_name (filtersOpt.getD []))
  else snow_base_url base table_name (resolve_fields table_name fieldsOpt)

/-- Outcome of the pure prefix of an async facade function: either an error
payload returned before any transport request is issued (a dict with an
`error` key), or the request that would be handed to the paginated
executor (URL together with its `max_results` bound). -/
inductive FacadeOutcome : Type
  | error (msg : PyStr)
  | request (url : PyStr) (max_results : Nat)
deriving DecidableEq

/-- Model of `_build_priority_filter`: OR-based priority filter. -/
def _build_priority_filter (priorities : List PyStr) : PyStr :=
  match priorities with
  | [] => []
  | [p] => "priority=".data ++ p
  | ps =>
    joinSep "^OR".data (ps.map (fun p => "priority=".data ++ p))

/-- Model of `get_records_by_priority`, modelled up to its transport call (the
paginated request with `max_results=100` inside the `try` block).  All
config validation happens before any request: an unsupported or unknown
table, a missing field catalog, and an empty priority filter each return
an error payload immediately. -/
def get_records_by_priority (base table_name : PyStr) (priorities : List PyStr)
    (additional_filters : List (PyStr × PyStr)) (detailed : Bool) : FacadeOutcome :=
  if table_priority_supported table_name = false then
    .error (TABLE_NO_PRIORITY_SUPPORT_ERROR_msg table_name)
  else
    let fields := table_fields table_name detailed
    if fields.isEmpty then .error (NO_FIELD_CONFIG_ERROR_msg table_name)
    else
      let priority_filter := _build_priority_filter priorities
      if priority_filter.isEmpty then .error NO_VALID_PRIORITIES_ERROR
      else
        let filters := priority_filter ::
          additional_filters.map (fun fv => fv.1 ++ "=".data ++ fv.2)
        let final_query := joinSep "^".data filters
        let final_query := _apply_incident_category_filter table_name final_query
        let final_query := _apply_sc_catalog_filter table_name final_query
        let base_url := snow_base_url base table_name fields
        let url := if !final_query.isEmpty then
            base_url ++ "&sysparm_query=".data ++ final_query
          else base_url
        .request url 100

-- ### Helper lemmas about the string primitives

theorem dropWhile_append_cons (p : Char → Bool) (l₁ : PyStr) (c : Char) (l₂ : PyStr)
    (hc : p c = false) :
    List.dropWhile p (l₁ ++ c :: l₂) = List.dropWhile p l₁ ++ c :: l₂ := by
  induction l₁ with
  | nil => simp [List.dropWhile_cons, hc]
  | cons a t ih => cases hp : p a <;> simp [List.dropWhile_cons, hp, ih]

theorem dropWhile_idem (p : Char → Bool) (l : PyStr) :
    List.dropWhile p (List.dropWhile p l) = List.dropWhile p l := by
  induction l with
  | nil => rfl
  | cons a t ih =>
    rw [List.dropWhile_cons]
    by_cases hp : p a = true
    · rw [if_pos hp]
      exact ih
    · rw [if_neg hp, List.dropWhile_cons, if_neg hp]

theorem pyRStrip_idem (l : PyStr) : pyRStrip (pyRStrip l) = pyRStrip l := by
  unfold pyRStrip
  rw [List.reverse_reverse, dropWhile_idem]

theorem mem_of_mem_dropWhile {c : Char} {p : Char → Bool} {l : PyStr}
    (h : c ∈ List.dropWhile p l) : c ∈ l := by
  induction l with
  | nil => simp at h
  | cons a t ih =>
    rw [List.dropWhile_cons] at h
    by_cases hp : p a = true
    · rw [if_pos hp] at h
      exact List.mem_cons_of_mem a (ih h)
    · rw [if_neg hp] at h
      exact h

theorem mem_of_mem_pyRStrip {c : Char} {l : PyStr} (h : c ∈ pyRStrip l) : c ∈ l := by
  unfold pyRStrip at h
  rw [List.mem_reverse] at h
  exact List.mem_reverse.mp (mem_of_mem_dropWhile h)

theorem isPrefixOf_nil_left (l : PyStr) : List.isPrefixOf ([] : PyStr) l = true := by
  cases l <;> rfl

theorem isPrefixOf_append_self (l t : PyStr) : List.isPrefixOf l (l ++ t) = true := by
  induction l with
  | nil => exact isPrefixOf_nil_left t
  | cons a l ih =>
    show ((a == a) && List.isPrefixOf l (l ++ t)) = true
    rw [ih, beq_self_eq_true, Bool.and_true]

theorem isPrefixOf_single (c a : Char) (t : PyStr) :
    List.isPrefixOf [c] (a :: t) = (c == a) := by
  show ((c == a) && List.isPrefixOf ([] : PyStr) t) = (c == a)
  rw [isPrefixOf_nil_left, Bool.and_true]

theorem containsSub_single (hay : PyStr) (c : Char) :
    containsSub hay [c] = true ↔ c ∈ hay := by
  induction hay with
  | nil =>
    rw [show containsSub [] [c] = false from rfl]
    simp
  | cons a t ih =>
    rw [containsSub, isPrefixOf_single]
    by_cases hca : c = a
    · subst hca
      rw [beq_self_eq_true, if_pos rfl]
      simp
    · rw [show (c == a) = false from beq_eq_false_iff_ne.mpr hca]
      rw [if_neg (by decide)]
      show containsSub t [c] = true ↔ c ∈ a :: t
      rw [ih, List.mem_cons]
      constructor
      · exact Or.inr
      · rintro (h | h)
        · exact absurd h hca
        · exact h

theorem pyRStrip_callerIdNe (x : PyStr) :
    pyRStrip ("caller_id!=".data ++ x) = "caller_id!=".data ++ pyRStrip x := by
  unfold pyRStrip
  rw [List.reverse_append]
  rw [show ("caller_id!=".data).reverse = '=' :: "!di_rellac".data from by decide]
  rw [dropWhile_append_cons _ _ _ _ (by decide)]
  rw [List.reverse_append]
  rw [show ('=' :: "!di_rellac".data).reverse = "caller_id!=".data from by decide]

theorem pyStrip_callerIdNe (x : PyStr) :
    pyStrip ("caller_id!=".data ++ x) = "caller_id!=".data ++ pyRStrip x := by
  unfold pyStrip pyLStrip
  have hdw : List.dropWhile pyIsSpace ("caller_id!=".data ++ x) =
      "caller_id!=".data ++ x := by
    show List.dropWhile pyIsSpace ('c' :: ("aller_id!=".data ++ x)) =
      'c' :: ("aller_id!=".data ++ x)
    rw [List.dropWhile_cons, if_neg]
    intro h
    exact absurd h (by decide)
  rw [hdw, pyRStrip_callerIdNe]

-- ### C4, C6, C10: concrete functional facts

/-- C4: the condition dispatcher maps the priority value `P1,P2` to the
fragment `priority=1^ORpriority=2` and the value `3` to `priority=3`. -/
theorem build_query_condition_priority_concrete :
    _build_query_condition "priority".data "P1,P2".data =
      "priority=1^ORpriority=2".data ∧
    _build_query_condition "priority".data "3".data = "priority=3".data := by decide

/-- C6: parsing `week 35 of 2025` yields the range 2025-08-25 .. 2025-08-31,
a block of exactly 7 consecutive days whose start is a Monday on or after
January 4 2025, equal to the Monday of the week containing January 4 plus
34 weeks (the Monday-start ISO week 35 of 2025). -/
theorem week_35_of_2025_range :
    _parse_date_range_from_text (.ofStr "week 35 of 2025".data) =
      some ("2025-08-25".data, "2025-08-31".data) ∧
    daysFromCivil 2025 8 31 = daysFromCivil 2025 8 25 + 6 ∧
    pyWeekday (daysFromCivil 2025 8 25) = 0 ∧
    daysFromCivil 2025 1 4 ≤ daysFromCivil 2025 8 25 ∧
    daysFromCivil 2025 8 25 =
      daysFromCivil 2025 1 4 - pyWeekday (daysFromCivil 2025 1 4) + 7 * (35 - 1) := by
  decide

/-- C10: parsing `week 1 of 2025` yields the range 2024-12-30 .. 2025-01-05,
whose start date lies strictly before January 1 of the requested year. -/
theorem week_1_of_2025_crosses_year :
    _parse_date_range_from_text (.ofStr "week 1 of 2025".data) =
      some ("2024-12-30".data, "2025-01-05".data) ∧
    daysFromCivil 2024 12 30 < daysFromCivil 2025 1 1 := by decide

-- ### C3: the injection guard short-circuits every grammar

/-- C3: any non-string input, overlong string, or string with too many
spaces or hyphens is rejected by the guard, and the pipeline then returns
`none` no matter which parser registry would have been consulted — in
particular for the actual six-grammar registry of
`_parse_date_range_from_text`. -/
theorem regex_guard_rejects (ps : List (PyStr → Option (PyStr × PyStr))) (v : PyValue)
    (h : v = PyValue.nonStr ∨ ∃ s, v = PyValue.ofStr s ∧
      (200 < s.length ∨ 50 < List.count ' ' s ∨ 20 < List.count '-' s)) :
    parse_date_range_with ps v = none ∧ _parse_date_range_from_text v = none := by
  have hval : _validate_regex_input v = false := by
    rcases h with rfl | ⟨s, rfl, hs⟩
    · rfl
    · show (if 200 < s.length then false
        else if 50 < List.count ' ' s then false
        else if 20 < List.count '-' s then false else true) = false
      rcases hs with hs | hs | hs
      · rw [if_pos hs]
      · by_cases h1 : 200 < s.length
        · rw [if_pos h1]
        · rw [if_neg h1, if_pos hs]
      · by_cases h1 : 200 < s.length
        · rw [if_pos h1]
        · by_cases h2 : 50 < List.count ' ' s
          · rw [if_neg h1, if_pos h2]
          · rw [if_neg h1, if_neg h2, if_pos hs]
  constructor
  · unfold parse_date_range_with
    rw [hval]
    rfl
  · unfold _parse_date_range_from_text parse_date_range_with
    rw [hval]
    rfl

/-- Witness for C3 at a concrete overlong input and the empty registry. -/
theorem regex_guard_rejects_witness :
    parse_date_range_with [] (.ofStr (List.replicate 201 'a')) = none ∧
    _parse_date_range_from_text (.ofStr (List.replicate 201 'a')) = none :=
  regex_guard_rejects [] (.ofStr (List.replicate 201 'a'))
    (Or.inr ⟨List.replicate 201 'a', rfl, Or.inl (by rw [List.length_replicate]; omega)⟩)

-- ### C7: the caller-exclusion rewriter on already-rewritten fragments

theorem parse_caller_exclusions_on_rewritten (x : PyStr) (hcomma : ¬ ',' ∈ x) :
    _parse_caller_exclusions ("caller_id!=".data ++ x) =
      "caller_id!=".data ++ pyRStrip x := by
  unfold _parse_caller_exclusions
  rw [pyStrip_callerIdNe]
  rw [if_neg (by
    intro h
    rw [List.isEmpty_eq_true, List.append_eq_nil] at h
    exact absurd h.1 (by decide))]
  unfold _parse_caller_exclusions_stripped
  rw [if_neg (by
    intro h
    have h2 : List.head? (pyLower ("caller_id!=".data ++ pyRStrip x)) =
        List.head? "logicmonitor".data := congrArg List.head? h
    rw [show List.head? (pyLower ("caller_id!=".data ++ pyRStrip x)) =
        some 'c' from rfl] at h2
    exact absurd h2 (by decide))]
  rw [if_neg (by
    intro h
    have hmem : ',' ∈ "caller_id!=".data ++ pyRStrip x :=
      (containsSub_single _ ',').mp h
    rcases List.mem_append.mp hmem with hmem | hmem
    · exact absurd hmem (by decide)
    · exact hcomma (mem_of_mem_pyRStrip hmem))]
  rw [if_neg (by
    rw [isPrefixOf_append_self]
    simp)]

/-- C7 counterexample: the fragment-shaped value `caller_id!=abc ` (with a
trailing space) is NOT returned unchanged — the rewriter strips it. -/
theorem caller_exclusion_trailing_space_changed :
    ¬ (_parse_caller_exclusions "caller_id!=abc ".data = "caller_id!=abc ".data) ∧
    _parse_caller_exclusions "caller_id!=abc ".data = "caller_id!=abc".data := by decide

/-- C7 amended: for every value of the form `caller_id!=<x>` with no comma
in `x`, the rewriter returns the value with surrounding whitespace
stripped but otherwise unchanged — in particular values without trailing
whitespace come back verbatim — and applying the rewriter twice equals
applying it once on all such values. -/
theorem caller_exclusion_rewriter_idempotent (x : PyStr) (hcomma : ¬ ',' ∈ x) :
    _parse_caller_exclusions ("caller_id!=".data ++ x) =
      "caller_id!=".data ++ pyRStrip x ∧
    _parse_caller_exclusions (_parse_caller_exclusions ("caller_id!=".data ++ x)) =
      _parse_caller_exclusions ("caller_id!=".data ++ x) := by
  refine ⟨parse_caller_exclusions_on_rewritten x hcomma, ?_⟩
  rw [parse_caller_exclusions_on_rewritten x hcomma]
  rw [parse_caller_exclusions_on_rewritten (pyRStrip x)
    (fun h => hcomma (mem_of_mem_pyRStrip h))]
  rw [pyRStrip_idem]

/-- Witness for C7 at the concrete rewritten fragment `caller_id!=abc123`. -/
theorem caller_exclusion_rewriter_idempotent_witness :
    _parse_caller_exclusions ("caller_id!=".data ++ "abc123".data) =
      "caller_id!=".data ++ pyRStrip "abc123".data ∧
    _parse_caller_exclusions
        (_parse_caller_exclusions ("caller_id!=".data ++ "abc123".data)) =
      _parse_caller_exclusions ("caller_id!=".data ++ "abc123".data) :=
  caller_exclusion_rewriter_idempotent "abc123".data (by decide)

-- ### C9: the P-prefix rewrite on arbitrary values

/-- C9 counterexample: the value `p1 ` (trailing space) satisfies every
condition of the claim (first character p, length over 1, no comma, no OR
connective), yet the dispatcher does not produce `priority=` followed by
the value minus its first character — the strip removes the space first. -/
theorem priority_p_prefix_trailing_space :
    ¬ (_build_query_condition "priority".data "p1 ".data =
        "priority=".data ++ List.drop 1 "p1 ".data) ∧
    _build_query_condition "priority".data "p1 ".data = "priority=1".data := by
  decide

/-- C9 amended: for the field `priority`, every value of length greater
than 1 whose first character is `p` or `P`, containing no comma, no `^OR`
substring, and no surrounding whitespace, is rewritten to `priority=`
followed by the value with its first character removed (values with
surrounding whitespace are stripped first). -/
theorem priority_p_prefix_strips_first (c : Char) (rest : PyStr)
    (hc : c = 'p' ∨ c = 'P') (hrest : rest ≠ [])
    (hcomma : ¬ ',' ∈ c :: rest)
    (hor : containsSub (c :: rest) "^OR".data = false)
    (hstrip : pyStrip (c :: rest) = c :: rest) :
    _build_query_condition "priority".data (c :: rest) = "priority=".data ++ rest := by
  have hup : List.isPrefixOf "P".data (pyUpper (c :: rest)) = true := by
    rcases hc with rfl | rfl
    · show List.isPrefixOf ['P'] ('P' :: pyUpper rest) = true
      rw [isPrefixOf_single, beq_self_eq_true]
    · show List.isPrefixOf ['P'] ('P' :: pyUpper rest) = true
      rw [isPrefixOf_single, beq_self_eq_true]
  have hcm : containsSub (c :: rest) [','] = false := by
    cases hcs : containsSub (c :: rest) [','] with
    | false => rfl
    | true => exact absurd ((containsSub_single _ ',').mp hcs) hcomma
  have h1 : _handle_date_range_condition "priority".data (c :: rest) = none := by
    unfold _handle_date_range_condition
    rw [if_neg (by decide)]
  have h2 : _handle_priority_condition "priority".data (c :: rest) =
      some (_parse_priority_list (c :: rest)) := by
    unfold _handle_priority_condition
    rw [if_pos ⟨rfl, by rw [hup, Bool.or_true]⟩]
  have hlist : _parse_priority_list (c :: rest) = "priority=".data ++ rest := by
    unfold _parse_priority_list
    rw [hstrip]
    rw [if_neg (by simp)]
    unfold _parse_priority_list_stripped
    rw [if_neg (fun h => by rw [hor] at h; exact absurd h (by decide))]
    rw [if_neg (fun h => by rw [hcm] at h; exact absurd h (by decide))]
    rw [if_pos (by simp)]
    unfold _format_single_priority _normalize_priority_value
    rw [if_pos ⟨hup, by
      rw [List.length_cons]
      have := List.length_pos.mpr hrest
      omega⟩]
    rfl
  unfold _build_query_condition
  rw [if_neg (by decide), if_neg (by decide)]
  have hchain : try_condition_handlers condition_handlers "priority".data (c :: rest) =
      some (_parse_priority_list (c :: rest)) := by
    show try_condition_handlers
      [_handle_date_range_condition, _handle_priority_condition,
       _handle_caller_exclusion_condition, _handle_servicenow_filter_condition,
       _handle_operator_condition, _handle_suffix_operator_condition]
      "priority".data (c :: rest) = some (_parse_priority_list (c :: rest))
    rw [try_condition_handlers, h1]
    show try_condition_handlers
      [_handle_priority_condition, _handle_caller_exclusion_condition,
       _handle_servicenow_filter_condition, _handle_operator_condition,
       _handle_suffix_operator_condition]
      "priority".data (c :: rest) = some (_parse_priority_list (c :: rest))
    rw [try_condition_handlers, h2]
  rw [hchain]
  show _parse_priority_list (c :: rest) = "priority=".data ++ rest
  exact hlist

/-- Witness for C9 at the value `pending`, which the dispatcher rewrites to
`priority=ending`. -/
theorem priority_p_prefix_strips_first_witness :
    _build_query_condition "priority".data ('p' :: "ending".data) =
      "priority=".data ++ "ending".data :=
  priority_p_prefix_strips_first 'p' "ending".data (Or.inl rfl) (by decide)
    (by decide) (by decide) (by decide)

-- ### C8: configuration errors of `get_records_by_priority`

/-- C8: a table without priority support (unknown table, or a configured
table whose `priority_field` is missing, such as `kb_knowledge` and
`task_sla`) yields the priority-support error payload; a priority-capable
table without a field catalog yields the field-configuration error
payload; an empty priorities list yields the no-valid-priorities payload.
All three are returned as error values before any transport request is
issued (the `request` constructor is never reached). -/
theorem get_records_by_priority_error_payloads :
    (∀ base table_name priorities additional_filters detailed,
      table_priority_supported table_name = false →
      get_records_by_priority base table_name priorities additional_filters detailed =
        .error (TABLE_NO_PRIORITY_SUPPORT_ERROR_msg table_name)) ∧
    (∀ base table_name priorities additional_filters detailed,
      table_priority_supported table_name = true →
      table_fields table_name detailed = [] →
      get_records_by_priority base table_name priorities additional_filters detailed =
        .error (NO_FIELD_CONFIG_ERROR_msg table_name)) ∧
    (∀ base table_name additional_filters detailed,
      table_priority_supported table_name = true →
      ¬ table_fields table_name detailed = [] →
      get_records_by_priority base table_name [] additional_filters detailed =
        .error NO_VALID_PRIORITIES_ERROR) := by
  refine ⟨?_, ?_, ?_⟩
  · intro base t ps af d h
    simp only [get_records_by_priority]
    rw [if_pos h]
  · intro base t ps af d hsupp hfields
    simp only [get_records_by_priority]
    rw [if_neg (fun hh => by rw [hsupp] at hh; exact absurd hh (by decide))]
    rw [hfields]
    rw [if_pos (show List.isEmpty ([] : List PyStr) = true from rfl)]
  · intro base t af d hsupp hfields
    simp only [get_records_by_priority]
    rw [if_neg (fun hh => by rw [hsupp] at hh; exact absurd hh (by decide))]
    rw [if_neg (fun hh => hfields (List.isEmpty_eq_true.mp hh))]
    rw [if_pos (show List.isEmpty (_build_priority_filter []) = true from rfl)]

/-- Witness for C8 at `kb_knowledge` (no priority field), an unknown table,
`sc_req_item` (no field catalog), and `incident` with no priorities. -/
theorem get_records_by_priority_error_payloads_witness :
    get_records_by_priority [] "kb_knowledge".data ["1".data] [] false =
      .error (TABLE_NO_PRIORITY_SUPPORT_ERROR_msg "kb_knowledge".data) ∧
    get_records_by_priority [] "not_a_table".data ["1".data] [] false =
      .error (TABLE_NO_PRIORITY_SUPPORT_ERROR_msg "not_a_table".data) ∧
    get_records_by_priority [] "sc_req_item".data ["1".data] [] false =
      .error (NO_FIELD_CONFIG_ERROR_msg "sc_req_item".data) ∧
    get_records_by_priority [] "incident".data [] [] false =
      .error NO_VALID_PRIORITIES_ERROR :=
  ⟨get_records_by_priority_error_payloads.1 [] _ _ [] false (by decide),
   get_records_by_priority_error_payloads.1 [] _ _ [] false (by decide),
   get_records_by_priority_error_payloads.2.1 [] _ _ [] false (by decide) (by decide),
   get_records_by_priority_error_payloads.2.2 [] _ [] false (by decide) (by decide)⟩

-- ### C1: category exclusions cannot be bypassed by caller filters

theorem containsSub_append_of_right (l m sub : PyStr) (h : containsSub m sub = true) :
    containsSub (l ++ m) sub = true := by
  induction l with
  | nil => exact h
  | cons a t ih =>
    rw [containsSub.eq_def]
    by_cases hp : List.isPrefixOf sub (a :: t ++ m) = true
    · rw [if_pos hp]
    · rw [if_neg hp]
      show containsSub (t ++ m) sub = true
      exact ih

/-- C1: for the incident table (category filtering enabled), the query
string assembled by `query_table_with_filters` from ANY caller-supplied
filter mapping — including one whose value is a pre-built complete filter
with the OR connective — starts with the caller-derived query and ends
with the configured category-exclusion block, so it contains all three
exclusion fragments appended after all caller-derived fragments, and no
caller filter value can remove them. -/
theorem incident_category_filter_non_bypass (filters : List (PyStr × PyStr)) :
    (∃ t, query_table_with_filters_assembled "incident".data filters =
      _build_query_string filters ++ t) ∧
    (∃ p, query_table_with_filters_assembled "incident".data filters =
      p ++ "category!=Payroll^category!=People Support^category!=Workplace".data) ∧
    containsSub (query_table_with_filters_assembled "incident".data filters)
      "category!=Payroll".data = true ∧
    containsSub (query_table_with_filters_assembled "incident".data filters)
      "category!=People Support".data = true ∧
    containsSub (query_table_with_filters_assembled "incident".data filters)
      "category!=Workplace".data = true := by
  have hsc : ∀ y : PyStr, _apply_sc_catalog_filter "incident".data y = y := by
    intro y
    unfold _apply_sc_catalog_filter
    rw [if_pos (Or.inl (by decide))]
  have hcatq : joinSep "^".data (EXCLUDED_INCIDENT_CATEGORIES.map
      (fun category => "category!=".data ++ category)) =
      "category!=Payroll^category!=People Support^category!=Workplace".data := by decide
  have hasm : query_table_with_filters_assembled "incident".data filters =
      (if (!(_build_query_string filters).isEmpty) = true then
        _build_query_string filters ++ "^".data ++
          "category!=Payroll^category!=People Support^category!=Workplace".data
       else "category!=Payroll^category!=People Support^category!=Workplace".data) := by
    unfold query_table_with_filters_assembled
    rw [hsc]
    unfold _apply_incident_category_filter
    rw [if_neg (by
      rintro (h | h)
      · exact h rfl
      · exact absurd h (by decide))]
    show (if (!(_build_query_string filters).isEmpty) = true then
        _build_query_string filters ++ "^".data ++
          joinSep "^".data (EXCLUDED_INCIDENT_CATEGORIES.map
            (fun category => "category!=".data ++ category))
       else joinSep "^".data (EXCLUDED_INCIDENT_CATEGORIES.map
            (fun category => "category!=".data ++ category))) = _
    rw [hcatq]
  by_cases hq : (_build_query_string filters).isEmpty = true
  · have hqnil : _build_query_string filters = [] := List.isEmpty_eq_true.mp hq
    have hform : query_table_with_filters_assembled "incident".data filters =
        "category!=Payroll^category!=People Support^category!=Workplace".data := by
      rw [hasm, hqnil]
      rw [if_neg (by decide)]
    refine ⟨⟨"category!=Payroll^category!=People Support^category!=Workplace".data, ?_⟩,
      ⟨[], ?_⟩, ?_, ?_, ?_⟩
    · rw [hform, hqnil]
      rfl
    · rw [hform]
      rfl
    · rw [hform]
      decide
    · rw [hform]
      decide
    · rw [hform]
      decide
  · have hqf : (_build_query_string filters).isEmpty = false := by
      cases hB : (_build_query_string filters).isEmpty with
      | false => rfl
      | true => exact absurd hB hq
    have hform : query_table_with_filters_assembled "incident".data filters =
        (_build_query_string filters ++ "^".data) ++
          "category!=Payroll^category!=People Support^category!=Workplace".data := by
      rw [hasm, hqf]
      rw [if_pos (show (!false) = true from rfl)]
    refine ⟨⟨"^".data ++
        "category!=Payroll^category!=People Support^category!=Workplace".data, ?_⟩,
      ⟨_, hform⟩, ?_, ?_, ?_⟩
    · rw [hform, List.append_assoc]
    · rw [hform]
      exact containsSub_append_of_right _ _ _ (by decide)
    · rw [hform]
      exact containsSub_append_of_right _ _ _ (by decide)
    · rw [hform]
      exact containsSub_append_of_right _ _ _ (by decide)

-- ### C5: empty filter mapping and the `sysparm_query` parameter

set_option maxRecDepth 8000 in
/-- C5 counterexample: for the incident table an empty filter mapping does
NOT omit `sysparm_query` — the mandatory category exclusions make the
assembled query non-empty, so the parameter is present in the URL. -/
theorem empty_filters_incident_url_has_query_param :
    containsSub (query_table_with_filters_url [] "incident".data (some []) none)
      "&sysparm_query=".data = true ∧
    query_table_with_filters_url [] "incident".data (some []) none =
      ("/api/now/table/incident?sysparm_fields=number,short_description,priority," ++
       "state,category,sys_created_on&sysparm_display_value=true&sysparm_query=" ++
       "category!=Payroll^category!=People%20Support^category!=Workplace").data := by
  decide

/-- C5 amended: an empty filter mapping yields the empty query string, and
`query_table_with_filters` then omits the `sysparm_query` parameter for
every table not subject to a mandatory security filter (any table other
than `incident` and the three service catalog tables); for the filtered
tables the security exclusions make the query non-empty and the parameter
is included. -/
theorem empty_filter_mapping_omits_query_param (base table_name : PyStr)
    (fieldsOpt : Option (List PyStr)) (h1 : ¬ table_name = "incident".data)
    (h2 : ¬ table_name ∈ SC_CATALOG_TABLES) :
    _build_query_string [] = [] ∧
    query_table_with_filters_url base table_name (some []) fieldsOpt =
      snow_base_url base table_name (resolve_fields table_name fieldsOpt) := by
  refine ⟨rfl, ?_⟩
  have hasm : query_table_with_filters_assembled table_name [] = [] := by
    unfold query_table_with_filters_assembled
    rw [show _build_query_string [] = [] from rfl]
    unfold _apply_incident_category_filter
    rw [if_pos (Or.inl h1)]
    unfold _apply_sc_catalog_filter
    rw [if_pos (Or.inl h2)]
  unfold query_table_with_filters_url
  rw [show ((some ([] : List (PyStr × PyStr))).getD []) = [] from rfl]
  rw [hasm]
  rw [show _encode_query_string [] = [] from rfl]
  rw [if_neg (by decide)]

/-- Witness for C5 at the unfiltered table `kb_knowledge`. -/
theorem empty_filter_mapping_omits_query_param_witness :
    _build_query_string [] = [] ∧
    query_table_with_filters_url [] "kb_knowledge".data (some []) none =
      snow_base_url [] "kb_knowledge".data (resolve_fields "kb_knowledge".data none) :=
  empty_filter_mapping_omits_query_param [] "kb_knowledge".data none (by decide) (by decide)

-- ### C2: termination and request count of the paginated executor

theorem ceilDiv_step (ps n : Nat) (hps : 0 < ps) (hn : 0 < n) :
    (n + ps - 1) / ps = (n - ps + ps - 1) / ps + 1 := by
  rcases le_or_lt n ps with h | h
  · have h0 : n - ps = 0 := by omega
    rw [h0]
    have h1 : n + ps - 1 = (n - 1) + ps := by omega
    rw [h1, Nat.add_div_right _ hps]
    have h2 : (n - 1) / ps = 0 := Nat.div_eq_of_lt (by omega)
    have h3 : (0 + ps - 1) / ps = 0 := Nat.div_eq_of_lt (by omega)
    rw [h2, h3]
  · have h1 : n + ps - 1 = (n - 1) + ps := by omega
    have h2 : n - ps + ps - 1 = (n - ps - 1) + ps := by omega
    have h3 : n - 1 = (n - ps - 1) + ps := by omega
    rw [h1, h2, Nat.add_div_right _ hps, Nat.add_div_right _ hps, h3,
      Nat.add_div_right _ hps]

theorem le_mul_ceilDiv (ps n : Nat) (hps : 0 < ps) : n ≤ ps * ((n + ps - 1) / ps) := by
  have hdm := Nat.div_add_mod (n + ps - 1) ps
  have hlt : (n + ps - 1) % ps < ps := Nat.mod_lt _ hps
  omega

theorem paginate_loop_stop {α : Type} (tr : Nat → Option (List α)) (mr ps : Nat)
    (acc : List α) (off r : Nat) (h : ¬ acc.length < mr) :
    paginate_loop tr mr ps acc off r = (acc, r) := by
  rw [paginate_loop]
  rw [dif_neg h]

theorem paginate_loop_short {α : Type} (tr : Nat → Option (List α)) (mr ps : Nat)
    (acc : List α) (off r : Nat) (b : List α)
    (hcont : acc.length < mr) (hb : tr off = some b) (hne : b ≠ [])
    (hshort : b.length < ps) :
    paginate_loop tr mr ps acc off r = (acc ++ b, r + 1) := by
  rw [paginate_loop, dif_pos hcont, hb]
  have hemp : ¬ (b.isEmpty = true) := by
    cases b with
    | nil => exact absurd rfl hne
    | cons x t => simp
  dsimp only
  rw [dif_neg hemp, dif_pos hshort]

theorem paginate_loop_cont {α : Type} (tr : Nat → Option (List α)) (mr ps : Nat)
    (acc : List α) (off r : Nat) (b : List α)
    (hcont : acc.length < mr) (hb : tr off = some b) (hne : b ≠ [])
    (hlong : ¬ b.length < ps) :
    paginate_loop tr mr ps acc off r =
      paginate_loop tr mr ps (acc ++ b) (off + ps) (r + 1) := by
  rw [paginate_loop, dif_pos hcont, hb]
  have hemp : ¬ (b.isEmpty = true) := by
    cases b with
    | nil => exact absurd rfl hne
    | cons x t => simp
  dsimp only
  rw [dif_neg hemp, dif_neg hlong]

/-- When every transport page has exactly `ps` records, the loop adds
`ceil((mr - acc.length) / ps)` pages and issues that many requests. -/
theorem paginate_loop_const_pages {α : Type} (tr : Nat → Option (List α)) (mr ps : Nat)
    (hps : 0 < ps) (htr : ∀ off, ∃ b, tr off = some b ∧ b.length = ps) :
    ∀ n acc off r, mr - acc.length = n →
      (paginate_loop tr mr ps acc off r).1.length =
        acc.length + ps * ((n + ps - 1) / ps) ∧
      (paginate_loop tr mr ps acc off r).2 = r + (n + ps - 1) / ps := by
  intro n
  induction n using Nat.strong_induction_on with
  | _ n ih =>
    intro acc off r hn
    by_cases hcont : acc.length < mr
    · obtain ⟨b, hb, hblen⟩ := htr off
      have hne : b ≠ [] := by
        intro h
        rw [h] at hblen
        simp at hblen
        omega
      have hlong : ¬ b.length < ps := by omega
      rw [paginate_loop_cont tr mr ps acc off r b hcont hb hne hlong]
      have hpos : 0 < n := by omega
      have hn2 : mr - (acc ++ b).length = n - ps := by
        rw [List.length_append, hblen]
        omega
      have hdec : n - ps < n := by omega
      obtain ⟨ih1, ih2⟩ := ih (n - ps) hdec (acc ++ b) (off + ps) (r + 1) hn2
      have hstep : (n + ps - 1) / ps = (n - ps + ps - 1) / ps + 1 :=
        ceilDiv_step ps n hps hpos
      constructor
      · rw [ih1, List.length_append, hblen, hstep, Nat.mul_add, Nat.mul_one]
        omega
      · rw [ih2, hstep]
        omega
    · have hn0 : n = 0 := by omega
      subst hn0
      rw [paginate_loop_stop tr mr ps acc off r hcont]
      have hz : (0 + ps - 1) / ps = 0 := Nat.div_eq_of_lt (by omega)
      rw [hz]
      constructor <;> simp

/-- C2: for every `max_results > 0` and `page_size > 0`: (a) when the
transport returns exactly `page_size` records on every request, the
executor (which terminates by construction) returns exactly `max_results`
records after truncation and issues exactly
`ceil(max_results / page_size)` transport requests; (b) whenever a
transport response is a non-empty page shorter than `page_size`, the loop
appends that page and stops with that single additional request. -/
theorem make_paginated_request_contract {α : Type} (transport : Nat → Option (List α))
    (max_results page_size : Nat) (hmr : 0 < max_results) (hps : 0 < page_size) :
    ((∀ off, ∃ b, transport off = some b ∧ b.length = page_size) →
      (_make_paginated_request transport max_results page_size).1.length = max_results ∧
      (_make_paginated_request transport max_results page_size).2 =
        (max_results + page_size - 1) / page_size) ∧
    (∀ acc off r b, transport off = some b → b ≠ [] → b.length < page_size →
      acc.length < max_results →
      paginate_loop transport max_results page_size acc off r = (acc ++ b, r + 1)) := by
  constructor
  · intro htr
    obtain ⟨h1, h2⟩ := paginate_loop_const_pages transport max_results page_size hps htr
      max_results [] 0 0 (by simp)
    constructor
    · show ((paginate_loop transport max_results page_size [] 0 0).1.take
        max_results).length = max_results
      rw [List.length_take, h1]
      have hge := le_mul_ceilDiv page_size max_results hps
      have hmin : max_results ≤ List.length ([] : List α) +
          page_size * ((max_results + page_size - 1) / page_size) := by
        simpa using hge
      rw [Nat.min_eq_left hmin]
    · show (paginate_loop transport max_results page_size [] 0 0).2 =
        (max_results + page_size - 1) / page_size
      rw [h2, Nat.zero_add]
  · intro acc off r b hb hne hshort hcont
    exact paginate_loop_short transport max_results page_size acc off r b hcont hb hne hshort

/-- Witness for C2: a transport always answering two records with
`max_results = 3`, `page_size = 2` yields 3 records in 2 requests; a
transport answering a single (short) record stops after appending it. -/
theorem make_paginated_request_contract_witness :
    ((_make_paginated_request (fun _ => some [(0 : Nat), 0]) 3 2).1.length = 3 ∧
     (_make_paginated_request (fun _ => some [(0 : Nat), 0]) 3 2).2 = (3 + 2 - 1) / 2) ∧
    paginate_loop (fun _ => some [(5 : Nat)]) 3 2 [] 0 0 = ([] ++ [5], 0 + 1) :=
  ⟨(make_paginated_request_contract (fun _ => some [(0 : Nat), 0]) 3 2 (by decide)
      (by decide)).1 (fun _ => ⟨[0, 0], rfl, rfl⟩),
   (make_paginated_request_contract (fun _ => some [(5 : Nat)]) 3 2 (by decide)
      (by decide)).2 [] 0 0 [5] rfl (by decide) (by decide) (by decide)⟩

end SN

